import Mathlib

/-!
Verification development for the NVR PDF table extractor
(`functions/scripts/extract_pdf_tables.py` plus the cloud-function driver
`python-functions/main.py`).

Shallow-embedding conventions:
* Page coordinates (floats in pdfplumber) are modelled as integers `ℤ`; the
  extractor only ever subtracts and order-compares them, so the geometric
  logic is unchanged.
* Each `page.search(pattern, case=False)` call the script performs is
  modelled as an explicit field of `Page` holding that search's hit list;
  `page.find_tables(...)` likewise (one field for the lines-strategy call of
  the extraction loop, one for the default-settings call of the debug pass).
* A cell is `Option String` (`None` vs text), a row is a list of cells.
* A page whose processing raises an exception is modelled as
  `Except.error message`; the `except Exception ... raise` handler re-raises
  the caught exception object unchanged, which the embedding reflects by
  propagating the error value unchanged.
* The lenient `pd.to_datetime(s, errors='coerce')` fallback of `parse_dates`
  is external pandas behaviour and is passed in as a `fallback` parameter.
-/

namespace NVR

abbrev Cell := Option String
abbrev Row := List Cell
abbrev Grid := List Row

/-- A text-search hit returned by `page.search`; only its `top` and `bottom`
vertical coordinates are used by the extractor. -/
structure Hit where
  top : ℤ
  bottom : ℤ
deriving DecidableEq

/-- A table bounding box `(x0, top, x1, bottom)`; the code reads `bbox[1]`
(top) and `bbox[3]` (bottom). -/
structure BBox where
  x0 : ℤ
  top : ℤ
  x1 : ℤ
  bottom : ℤ
deriving DecidableEq

/-- A geometrically detected table: its bounding box and the cell grid that
`table.extract()` returns. -/
structure TableRegion where
  bbox : BBox
  content : Grid
deriving DecidableEq

/-- One PDF page, as seen through the pdfplumber calls the script makes. -/
structure Page where
  /-- `page.search("Verified Records", case=False)` -/
  verified_records : List Hit
  /-- `page.search(r"Threatened fauna within 5000 metres\s*\(based on Range Boundaries\)", case=False)` -/
  fauna_range_hits : List Hit
  /-- `page.search(r"Threatened flora within 5000 metres\s*\(based on Range Boundaries\)", case=False)` -/
  flora_range_hits : List Hit
  /-- `page.search(r"Threatened fauna within 5000 metres", case=False)` -/
  fauna_hits : List Hit
  /-- `page.search(r"Threatened flora within 5000 metres", case=False)` -/
  flora_hits : List Hit
  /-- debug pass only: `page.search("fauna", case=False)` -/
  fauna_word_hits : List Hit
  /-- debug pass only: `page.search("flora", case=False)` -/
  flora_word_hits : List Hit
  /-- debug pass only: `page.search("species", case=False)` -/
  species_word_hits : List Hit
  /-- `page.find_tables({"vertical_strategy": "lines", "horizontal_strategy": "lines", "snap_tolerance": 4})` -/
  tables : List TableRegion
  /-- debug pass only: `page.find_tables()` with default settings -/
  tables_default : List TableRegion
  /-- `page.height` -/
  height : ℤ
deriving DecidableEq

/-- The four section kinds of the `outputs` registry. -/
inductive SectionType
  | flora
  | fauna
  | flora_range
  | fauna_range
deriving DecidableEq

/-- An entry of `headers_on_page`: `{"type": ..., "bottom": hit["bottom"], "top": hit["top"]}`. -/
structure Heading where
  type : SectionType
  bottom : ℤ
  top : ℤ
deriving DecidableEq

/-- Lines 121–155: collect the heading hits of a page.  Plain-pattern hits
whose `top` is strictly within 5 units of a same-kind range-pattern hit's
`top` are dropped; the remaining headings are stably sorted by `top`
(`headers_on_page.sort(key=lambda x: x["top"])`, modelled by the stable
`List.insertionSort`). -/
def headers_on_page (p : Page) : List Heading :=
  if p.verified_records.isEmpty then []
  else
    let fauna_range := p.fauna_range_hits.map fun h =>
      { type := SectionType.fauna_range, bottom := h.bottom, top := h.top }
    let flora_range := p.flora_range_hits.map fun h =>
      { type := SectionType.flora_range, bottom := h.bottom, top := h.top }
    let fauna := (p.fauna_hits.filter fun hit =>
        !(p.fauna_range_hits.any fun r => decide (|r.top - hit.top| < 5))).map fun h =>
      { type := SectionType.fauna, bottom := h.bottom, top := h.top }
    let flora := (p.flora_hits.filter fun hit =>
        !(p.flora_range_hits.any fun r => decide (|r.top - hit.top| < 5))).map fun h =>
      { type := SectionType.flora, bottom := h.bottom, top := h.top }
    (fauna_range ++ flora_range ++ fauna ++ flora).insertionSort fun a b => a.top ≤ b.top

/-- One accumulator of the `outputs` dict: `{"rows": [], "header": None, "page_numbers": []}`. -/
structure SectionData where
  rows : List Row
  header : Option Row
  page_numbers : List Nat
deriving DecidableEq

def SectionData.init : SectionData := ⟨[], none, []⟩

/-- The `outputs` registry with its four fixed keys. -/
structure Outputs where
  flora : SectionData
  fauna : SectionData
  flora_range : SectionData
  fauna_range : SectionData
deriving DecidableEq

def Outputs.init : Outputs := ⟨.init, .init, .init, .init⟩

def Outputs.get (o : Outputs) : SectionType → SectionData
  | .flora => o.flora
  | .fauna => o.fauna
  | .flora_range => o.flora_range
  | .fauna_range => o.fauna_range

def Outputs.set (o : Outputs) : SectionType → SectionData → Outputs
  | .flora, s => { o with flora := s }
  | .fauna, s => { o with fauna := s }
  | .flora_range, s => { o with flora_range := s }
  | .fauna_range, s => { o with fauna_range := s }

/-- Lines 171–180, body run for a table inside the current heading band:
`content = table.extract(); if content:` record the page number, adopt
`content[0]` as header when none is stored yet, then append every row that
is not equal to the (now stored) header. -/
def add_table_content (page_num : Nat) (content : Grid) (s : SectionData) : SectionData :=
  match content with
  | [] => s
  | first :: _ =>
    let s1 : SectionData := { s with page_numbers := s.page_numbers ++ [page_num] }
    let hdr := s1.header.getD first
    { s1 with
        header := some hdr,
        rows := s1.rows ++ content.filter fun row => decide (row ≠ hdr) }

/-- Lines 169–180: the `for table in tables_on_page` loop of one heading band;
a table participates iff `table.bbox[1] >= top_boundary and table.bbox[3] <= bottom_boundary`. -/
def process_band (page_num : Nat) (tables : List TableRegion) (top_boundary bottom_boundary : ℤ)
    (s : SectionData) : SectionData :=
  tables.foldl
    (fun s table =>
      if top_boundary ≤ table.bbox.top ∧ table.bbox.bottom ≤ bottom_boundary then
        add_table_content page_num table.content s
      else s)
    s

/-- Lines 161–180: the `for i, header in enumerate(headers_on_page)` loop.
`bottom_boundary` is the next heading's `top`, or `page.height` for the last
heading. -/
def process_headings (page_num : Nat) (tables : List TableRegion) (page_height : ℤ) :
    List Heading → Outputs → Outputs
  | [], o => o
  | h :: rest, o =>
    let bottom_boundary :=
      match rest with
      | [] => page_height
      | h2 :: _ => h2.top
    let o1 := o.set h.type (process_band page_num tables h.bottom bottom_boundary (o.get h.type))
    process_headings page_num tables page_height rest o1

/-- Lines 187–196: the continuation loop over a headerless page's tables.
Returns the updated section and whether `last_section_type` survives: a table
whose extracted content is empty or whose first row's length differs from the
stored header's length sets `last_section_type = None` and breaks. -/
def continuation_loop (page_num : Nat) (header_to_match : Row) :
    List TableRegion → SectionData → SectionData × Bool
  | [], s => (s, true)
  | table :: rest, s =>
    match table.content with
    | [] => (s, false)
    | first :: tail =>
      if first.length = header_to_match.length then
        let s1 : SectionData := { s with
          page_numbers := s.page_numbers ++ [page_num],
          rows := s.rows ++ (first :: tail).filter fun row => decide (row ≠ header_to_match) }
        continuation_loop page_num header_to_match rest s1
      else (s, false)

/-- The mutable state threaded through the page loop: the `outputs` registry
and the `last_section_type` variable. -/
structure ScanState where
  outputs : Outputs
  last_section_type : Option SectionType
deriving DecidableEq

def ScanState.init : ScanState := ⟨Outputs.init, none⟩

/-- Lines 110–198: the body of the `for page_num, page in enumerate(self.pdf.pages, 1)`
loop.  Python truthiness is preserved: an empty `headers_on_page` list, a
missing (`None`) stored header and an empty (`[]`) stored header row are all
falsy. -/
def process_page (page_num : Nat) (p : Page) (st : ScanState) : ScanState :=
  match headers_on_page p with
  | h0 :: rest =>
    { outputs := process_headings page_num p.tables p.height (h0 :: rest) st.outputs,
      last_section_type := some (((h0 :: rest).getLast (List.cons_ne_nil h0 rest)).type) }
  | [] =>
    match st.last_section_type, p.tables with
    | some sty, _ :: _ =>
      let s := st.outputs.get sty
      match s.header with
      | some header_to_match =>
        if header_to_match.isEmpty then { st with last_section_type := none }
        else
          let r := continuation_loop page_num header_to_match p.tables s
          { outputs := st.outputs.set sty r.1,
            last_section_type := if r.2 then some sty else none }
      | none => { st with last_section_type := none }
    | _, _ => st

def scan_pages_from (page_num : Nat) : List Page → ScanState → ScanState
  | [], st => st
  | p :: rest, st => scan_pages_from (page_num + 1) rest (process_page page_num p st)

/-- The whole page loop of `extract_nvr_tables`, starting at page number 1. -/
def run_scan (pages : List Page) : ScanState := scan_pages_from 1 pages ScanState.init

/-- A page as fed to the extractor; `.error e` stands for a page whose
processing raises exception `e`. -/
abbrev PageResult := Except String Page

/-- The page loop over possibly-raising pages: the first exception escapes the
loop; the `except Exception` handler at lines 228–231 logs and then bare
`raise`s, so the original exception value propagates unchanged. -/
def scan_pages_fromE (page_num : Nat) : List PageResult → ScanState → Except String ScanState
  | [], st => .ok st
  | .error e :: _, _ => .error e
  | .ok p :: rest, st => scan_pages_fromE (page_num + 1) rest (process_page page_num p st)

/-! ### Row normalizer: `parse_dates` and `clean_and_process_table_data` -/

/-- Character-level split on a separator, the semantics `strptime` has when a
format alternates literal separators with fields (every separator occurrence
splits; the whole string must be consumed). -/
def split_sep_aux (sep : Char) : List Char → List Char → List (List Char)
  | [], acc => [acc.reverse]
  | c :: cs, acc =>
    if c = sep then acc.reverse :: split_sep_aux sep cs []
    else split_sep_aux sep cs (c :: acc)

def split_sep (sep : Char) (s : List Char) : List (List Char) := split_sep_aux sep s []

def digits_to_nat_aux : List Char → Nat → Nat
  | [], acc => acc
  | c :: cs, acc => digits_to_nat_aux cs (acc * 10 + (c.toNat - '0'.toNat))

/-- An all-digit field of between `minLen` and `maxLen` characters
(`strptime`: `%d`/`%m` take 1–2 digits, `%Y` exactly 4). -/
def parse_digits (minLen maxLen : Nat) (s : List Char) : Option Nat :=
  if minLen ≤ s.length ∧ s.length ≤ maxLen ∧ s.all Char.isDigit then
    some (digits_to_nat_aux s 0)
  else none

def month_abbrevs : List (List Char) :=
  ["jan".data, "feb".data, "mar".data, "apr".data, "may".data, "jun".data,
   "jul".data, "aug".data, "sep".data, "oct".data, "nov".data, "dec".data]

/-- `%b`: an English month abbreviation, matched case-insensitively. -/
def parse_month_abbrev (s : List Char) : Option Nat :=
  (month_abbrevs.indexOf? (s.map Char.toLower)).map fun i => i + 1

def is_leap_year (y : Nat) : Bool :=
  decide ((y % 4 = 0 ∧ y % 100 ≠ 0) ∨ y % 400 = 0)

def days_in_month (y m : Nat) : Nat :=
  if m = 2 then (if is_leap_year y then 29 else 28)
  else if m = 4 ∨ m = 6 ∨ m = 9 ∨ m = 11 then 30
  else 31

structure Date where
  year : Nat
  month : Nat
  day : Nat
deriving DecidableEq

/-- Calendar validation performed by `pd.to_datetime(..., format=...)`; an
out-of-range day or month raises `ValueError`, i.e. yields `none` here.
(The `Timestamp` range bound, years outside 1677–2262, is not modelled; all
claim-relevant inputs lie well inside it.) -/
def mk_valid_date (y m d : Nat) : Option Date :=
  if 1 ≤ m ∧ m ≤ 12 ∧ 1 ≤ d ∧ d ≤ days_in_month y m then some ⟨y, m, d⟩ else none

/-- `pd.to_datetime(s, format="%d-%b-%Y")` -/
def parse_fmt_d_b_Y (s : String) : Option Date :=
  match split_sep '-' s.data with
  | [d, b, y] => do
    let dn ← parse_digits 1 2 d
    let mn ← parse_month_abbrev b
    let yn ← parse_digits 4 4 y
    mk_valid_date yn mn dn
  | _ => none

/-- `pd.to_datetime(s, format="%d/%m/%Y")` -/
def parse_fmt_d_m_Y_slash (s : String) : Option Date :=
  match split_sep '/' s.data with
  | [d, m, y] => do
    let dn ← parse_digits 1 2 d
    let mn ← parse_digits 1 2 m
    let yn ← parse_digits 4 4 y
    mk_valid_date yn mn dn
  | _ => none

/-- `pd.to_datetime(s, format="%Y-%m-%d")` -/
def parse_fmt_Y_m_d (s : String) : Option Date :=
  match split_sep '-' s.data with
  | [y, m, d] => do
    let yn ← parse_digits 4 4 y
    let mn ← parse_digits 1 2 m
    let dn ← parse_digits 1 2 d
    mk_valid_date yn mn dn
  | _ => none

/-- `pd.to_datetime(s, format="%d-%m-%Y")` -/
def parse_fmt_d_m_Y_dash (s : String) : Option Date :=
  match split_sep '-' s.data with
  | [d, m, y] => do
    let dn ← parse_digits 1 2 d
    let mn ← parse_digits 1 2 m
    let yn ← parse_digits 4 4 y
    mk_valid_date yn mn dn
  | _ => none

/-- The `for fmt in ("%d-%b-%Y", "%d/%m/%Y", "%Y-%m-%d", "%d-%m-%Y")` loop:
first successful strict parse wins. -/
def try_formats (s : String) : Option Date :=
  match parse_fmt_d_b_Y s with
  | some d => some d
  | none =>
    match parse_fmt_d_m_Y_slash s with
    | some d => some d
    | none =>
      match parse_fmt_Y_m_d s with
      | some d => some d
      | none => parse_fmt_d_m_Y_dash s

def pad2 (n : Nat) : String := if n < 10 then "0" ++ toString n else toString n

def pad4 (n : Nat) : String :=
  if n < 10 then "000" ++ toString n
  else if n < 100 then "00" ++ toString n
  else if n < 1000 then "0" ++ toString n
  else toString n

/-- `parsed_date.strftime('%d-%m-%Y')` -/
def strftime_dmY (d : Date) : String :=
  pad2 d.day ++ "-" ++ pad2 d.month ++ "-" ++ pad4 d.year

/-- Lines 35–51, `parse_dates`: try the four strict formats in order, then the
lenient `pd.to_datetime(date_str, errors='coerce')` fallback (external pandas
behaviour, supplied as `fallback`; `NaT` is `none`), and on total failure
return the original string.  The argument is always a `str` here, so the
`pd.isna` guard only catches the empty string. -/
def parse_dates (fallback : String → Option Date) (date_str : String) : String :=
  if date_str = "" then ""
  else
    match try_formats date_str with
    | some d => strftime_dmY d
    | none =>
      match fallback date_str with
      | some d => strftime_dmY d
      | none => date_str

/-- Bool test that `needle` is an initial segment of `hay`. -/
def starts_with : List Char → List Char → Bool
  | [], _ => true
  | _ :: _, [] => false
  | a :: as, b :: bs => a = b && starts_with as bs

/-- Bool test that `needle` occurs contiguously inside `hay`
(Python `needle in hay`). -/
def contains_sub : List Char → List Char → Bool
  | needle, [] => starts_with needle []
  | needle, c :: cs => starts_with needle (c :: cs) || contains_sub needle cs

def lower_chars (s : String) : List Char := s.data.map Char.toLower

/-- Line 82: `any(date_word in header_name.lower() for date_word in ['date', 'recorded', 'last'])` -/
def is_date_column (header_name : String) : Bool :=
  contains_sub "date".data (lower_chars header_name) ||
  contains_sub "recorded".data (lower_chars header_name) ||
  contains_sub "last".data (lower_chars header_name)

/-- Python `str.strip()`: drop whitespace from both ends. -/
def py_strip (s : String) : String :=
  ⟨((s.data.dropWhile Char.isWhitespace).reverse.dropWhile Char.isWhitespace).reverse⟩

/-- Lines 62–68: pad a short row with `None` to the header width, truncate a
long one to it. -/
def clean_row (num_columns : Nat) (row : Row) : Row :=
  (row ++ List.replicate (num_columns - row.length) none).take num_columns

/-- Lines 77–85, per-cell cleanup.  A `None` or empty-string value becomes
`None` (before the header name is touched); otherwise a date-like column goes
through `parse_dates` and any other column is stringified and stripped.  A
`None` header name combined with a non-null value would raise
`AttributeError` at `header_name.lower()`, modelled as `.error`. -/
def clean_cell (fallback : String → Option Date) (header_name value : Cell) :
    Except String Cell :=
  match value with
  | none => .ok none
  | some v =>
    if v = "" then .ok none
    else
      match header_name with
      | none => .error "AttributeError"
      | some name =>
        if is_date_column name then .ok (some (parse_dates fallback v))
        else .ok (some (py_strip v))

/-- Lines 72–87, inner loop: `for col_idx, header_name in enumerate(header)`,
reading `row[col_idx] if col_idx < len(row) else None`.  Since the column
names are pairwise distinct wherever the spec speaks about this dict, the
`processed_row` dict is modelled as the association list in header order. -/
def process_row_from (fallback : String → Option Date) (row : Row) :
    Nat → Row → Except String (List (Cell × Cell))
  | _, [] => .ok []
  | col_idx, header_name :: rest =>
    match clean_cell fallback header_name (row.getD col_idx none) with
    | .error e => .error e
    | .ok cleaned =>
      match process_row_from fallback row (col_idx + 1) rest with
      | .error e => .error e
      | .ok tail => .ok ((header_name, cleaned) :: tail)

def process_row (fallback : String → Option Date) (header row : Row) :
    Except String (List (Cell × Cell)) :=
  process_row_from fallback row 0 header

structure ProcessedTable where
  headers : Row
  rows : List Row
  processed_data : List (List (Cell × Cell))
deriving DecidableEq

/-- The `for row in cleaned_rows` loop building `processed_data`. -/
def process_rows_loop (fallback : String → Option Date) (header : Row) :
    List Row → Except String (List (List (Cell × Cell)))
  | [] => .ok []
  | row :: rest =>
    match process_row fallback header row with
    | .error e => .error e
    | .ok rec1 =>
      match process_rows_loop fallback header rest with
      | .error e => .error e
      | .ok tail => .ok (rec1 :: tail)

/-- Lines 53–93, `clean_and_process_table_data`. -/
def clean_and_process_table_data (fallback : String → Option Date)
    (rows : List Row) (header : Row) : Except String ProcessedTable :=
  if header.isEmpty ∨ rows.isEmpty then .ok ⟨[], [], []⟩
  else
    let num_columns := header.length
    let cleaned_rows := rows.map (clean_row num_columns)
    match process_rows_loop fallback header cleaned_rows with
    | .error e => .error e
    | .ok pd => .ok ⟨header, cleaned_rows, pd⟩

/-! ### Section finalisation and the drivers -/

/-- Iteration order of `outputs.items()` (dict insertion order). -/
def section_order : List SectionType :=
  [SectionType.flora, SectionType.fauna, SectionType.flora_range, SectionType.fauna_range]

def SectionType.name : SectionType → String
  | .flora => "flora"
  | .fauna => "fauna"
  | .flora_range => "flora_range"
  | .fauna_range => "fauna_range"

/-- `f"NVR {section_name.replace('_', ' ').title()} Data"`, precomputed on the
four fixed section names. -/
def SectionType.nvr_description : SectionType → String
  | .flora => "NVR Flora Data"
  | .fauna => "NVR Fauna Data"
  | .flora_range => "NVR Flora Range Data"
  | .fauna_range => "NVR Fauna Range Data"

structure TableInfo where
  pageNumber : List Nat
  tableIndex : Nat
  tableName : String
  description : String
  headers : Row
  rows : List Row
  processed_data : List (List (Cell × Cell))
  record_count : Nat
  mergedCells : List Unit
  bbox : List ℤ
deriving DecidableEq

/-- Lines 200–226: build one `table_info` per section with
`section_data["rows"] and section_data["header"]` truthy (an absent header,
an empty header row and an empty row list are all falsy). -/
def finalize_sections_from (fallback : String → Option Date) (o : Outputs) :
    Nat → List SectionType → Except String (List TableInfo)
  | _, [] => .ok []
  | table_index, sty :: rest =>
    let sd := o.get sty
    match sd.header with
    | some hdr =>
      if sd.rows.isEmpty ∨ hdr.isEmpty then finalize_sections_from fallback o table_index rest
      else do
        let pt ← clean_and_process_table_data fallback sd.rows hdr
        let tail ← finalize_sections_from fallback o (table_index + 1) rest
        pure
          ({ pageNumber := sd.page_numbers
             tableIndex := table_index
             tableName := sty.name
             description := sty.nvr_description
             headers := pt.headers
             rows := pt.rows
             processed_data := pt.processed_data
             record_count := pt.processed_data.length
             mergedCells := []
             bbox := [0, 0, 0, 0] } :: tail)
    | none => finalize_sections_from fallback o table_index rest

/-- `extract_nvr_tables` on pages none of which raises. -/
def extract_nvr_tables (fallback : String → Option Date) (pages : List Page) :
    Except String (List TableInfo) :=
  finalize_sections_from fallback (run_scan pages).outputs 0 section_order

/-- `extract_nvr_tables` over possibly-raising pages: the whole body sits in
one `try` whose handler re-raises unchanged. -/
def extract_nvr_tablesE (fallback : String → Option Date) (pages : List PageResult) :
    Except String (List TableInfo) :=
  match scan_pages_fromE 1 pages ScanState.init with
  | .error e => .error e
  | .ok st => finalize_sections_from fallback st.outputs 0 section_order

structure DebugPage where
  page : Nat
  table_count : Nat
deriving DecidableEq

structure PageSearchResult where
  page : Nat
  counts : List (String × Nat)
deriving DecidableEq

structure DebugInfo where
  total_pages : Nat
  tables_found_per_page : List DebugPage
  text_search_results : List PageSearchResult
deriving DecidableEq

/-- Lines 293–310: hit counts of the six debug search phrases on one page. -/
def page_search_counts (p : Page) : List (String × Nat) :=
  [("Threatened fauna within 5000 metres", p.fauna_hits.length),
   ("Threatened flora within 5000 metres", p.flora_hits.length),
   ("Verified Records", p.verified_records.length),
   ("fauna", p.fauna_word_hits.length),
   ("flora", p.flora_word_hits.length),
   ("species", p.species_word_hits.length)]

def debug_pages_from (n : Nat) : List Page → List DebugPage
  | [] => []
  | p :: rest => ⟨n, p.tables_default.length⟩ :: debug_pages_from (n + 1) rest

def search_results_from (n : Nat) : List Page → List PageSearchResult
  | [] => []
  | p :: rest => ⟨n, page_search_counts p⟩ :: search_results_from (n + 1) rest

/-- Lines 277–312: the diagnostic payload assembled when no table was
extracted. -/
def build_debug_info (pages : List Page) : DebugInfo :=
  { total_pages := pages.length
    tables_found_per_page := debug_pages_from 1 pages
    text_search_results := search_results_from 1 pages }

/-- The `result` dict of `main` (metadata trimmed to what varies). -/
structure RunResult where
  success : Bool
  document_type : String
  tables : List TableInfo
  table_count : Nat
  sections_extracted : List String
  debug_info : Option DebugInfo
  error : Option String
deriving DecidableEq

/-- What `main` writes into the output file: the success-shaped dump at line
266 or the `error_result` dump at line 331. -/
inductive WrittenOutput
  | success (r : RunResult)
  | failure (error : String) (tables : List TableInfo)
deriving DecidableEq

/-- The observable outcome of one `main` run: the file content, the in-memory
`result` dict at the end, and the process exit code. -/
structure MainOutcome where
  written : WrittenOutput
  mem_result : Option RunResult
  exit_code : Nat
deriving DecidableEq

def no_tables_error_message (total_tables total_pages : Nat) : String :=
  "No species data tables found in PDF. Found " ++ toString total_tables ++
  " total tables across " ++ toString total_pages ++
  " pages, but none contained expected NVR species data format."

def ok_pages (pages : List PageResult) : List Page :=
  pages.filterMap fun pr =>
    match pr with
    | .ok p => some p
    | .error _ => none

/-- Lines 235–337, `main`.  Crucially, `json.dump(result, f)` runs at line
266–267, BEFORE the `if len(tables) == 0` branch adds `debug_info` and flips
`success`/`error` on the in-memory dict, so those mutations never reach the
output file. -/
def main (fallback : String → Option Date) (document_type : String)
    (pages : List PageResult) : MainOutcome :=
  match extract_nvr_tablesE fallback pages with
  | .error e =>
    { written := .failure e [], mem_result := none, exit_code := 1 }
  | .ok tables =>
    let result : RunResult :=
      { success := true
        document_type := document_type
        tables := tables
        table_count := tables.length
        sections_extracted := tables.map fun t => t.tableName
        debug_info := none
        error := none }
    let mem_result :=
      if tables.length = 0 then
        let dbg := build_debug_info (ok_pages pages)
        { result with
            debug_info := some dbg
            success := false
            error := some (no_tables_error_message
              ((dbg.tables_found_per_page.map fun d => d.table_count).sum)
              dbg.total_pages) }
      else result
    { written := .success result, mem_result := some mem_result, exit_code := 0 }

/-! ### Verification-side helper predicates and concrete test documents -/

/-- A table the continuation loop accepts: nonempty extracted content whose
first row has the stored header's length. -/
def good_continuation (hdr : Row) (t : TableRegion) : Prop :=
  t.content ≠ [] ∧ (t.content.headD []).length = hdr.length

instance (hdr : Row) (t : TableRegion) : Decidable (good_continuation hdr t) := by
  unfold good_continuation
  infer_instance

/-- The header/rows invariant of one section accumulator. -/
def SectionInv (s : SectionData) : Prop :=
  (s.header = none → s.rows = []) ∧ ∀ h, s.header = some h → h ∉ s.rows

/-- `SectionInv` for all four sections of a scan state. -/
def StateInv (st : ScanState) : Prop :=
  ∀ ty : SectionType, SectionInv (st.outputs.get ty)

/-- A page with no headings and no tables at all. -/
def blank_page : Page :=
  { verified_records := []
    fauna_range_hits := []
    flora_range_hits := []
    fauna_hits := []
    flora_hits := []
    fauna_word_hits := []
    flora_word_hits := []
    species_word_hits := []
    tables := []
    tables_default := []
    height := 100 }

/-- C3 counterexample page: flora heading with band ending at the fauna
heading's `top = 50`, and one table whose bbox bottom is exactly 50. -/
def page_C3 : Page :=
  { blank_page with
    verified_records := [⟨0, 5⟩]
    flora_hits := [⟨0, 10⟩]
    fauna_hits := [⟨50, 60⟩]
    tables := [⟨⟨0, 20, 10, 50⟩, [[some "H"], [some "x"]]⟩] }

/-- C4 witness page: one plain flora hit and one flora-range hit whose tops
differ by 2 (< 5). -/
def page_C4 : Page :=
  { blank_page with
    verified_records := [⟨0, 5⟩]
    flora_hits := [⟨10, 20⟩]
    flora_range_hits := [⟨12, 22⟩] }

/-- C5 counterexample, page 1: a fauna heading followed by a 3-column table. -/
def page_C5a : Page :=
  { blank_page with
    verified_records := [⟨0, 5⟩]
    fauna_hits := [⟨0, 10⟩]
    tables := [⟨⟨0, 20, 10, 30⟩,
      [[some "A", some "B", some "C"], [some "a1", some "a2", some "a3"]]⟩] }

/-- C5 counterexample, page 2: no headings; a matching 3-column continuation
table followed by a mismatching 2-column one. -/
def page_C5b : Page :=
  { blank_page with
    tables := [⟨⟨0, 10, 10, 20⟩, [[some "b1", some "b2", some "b3"]]⟩,
               ⟨⟨0, 30, 10, 40⟩, [[some "c1", some "c2"]]⟩] }

/-- C8 counterexample page: one flora heading whose band contains two tables
with nonempty content. -/
def page_C8 : Page :=
  { blank_page with
    verified_records := [⟨0, 5⟩]
    flora_hits := [⟨0, 10⟩]
    tables := [⟨⟨0, 20, 10, 30⟩, [[some "H"], [some "a"]]⟩,
               ⟨⟨0, 40, 10, 60⟩, [[some "H"], [some "b"]]⟩] }

/-- C9 witness page: one flora heading and one table adopting header `[H]`. -/
def page_C9 : Page :=
  { blank_page with
    verified_records := [⟨0, 5⟩]
    flora_hits := [⟨0, 10⟩]
    tables := [⟨⟨0, 20, 10, 30⟩, [[some "H"], [some "a"]]⟩] }

/-- C10 witness page: no headings; its only table extracts an empty grid. -/
def page_C10 : Page :=
  { blank_page with tables := [⟨⟨0, 10, 10, 20⟩, []⟩] }

/-- C10 witness state: a running fauna section with a stored 1-column header. -/
def state_C10 : ScanState :=
  { outputs := Outputs.init.set SectionType.fauna ⟨[[some "r"]], some [some "A"], [1]⟩,
    last_section_type := some SectionType.fauna }

/-- C5 witness page: no headings; a matching 1-column table, then a
mismatching 2-column table, then another (never examined) table. -/
def page_C5w : Page :=
  { blank_page with
    tables := [⟨⟨0, 10, 10, 20⟩, [[some "x"]]⟩,
               ⟨⟨0, 30, 10, 40⟩, [[some "y", some "z"]]⟩,
               ⟨⟨0, 50, 10, 60⟩, [[some "w"]]⟩] }

/-- C5 witness state: a running fauna section with a stored 1-column header. -/
def state_C5 : ScanState :=
  { outputs := Outputs.init.set SectionType.fauna ⟨[], some [some "A"], [1]⟩,
    last_section_type := some SectionType.fauna }

/-! ## Helper lemmas -/

theorem process_band_nil (n : Nat) (a b : ℤ) (s : SectionData) :
    process_band n [] a b s = s := rfl

theorem process_band_cons (n : Nat) (t : TableRegion) (ts : List TableRegion)
    (a b : ℤ) (s : SectionData) :
    process_band n (t :: ts) a b s =
      process_band n ts a b
        (if a ≤ t.bbox.top ∧ t.bbox.bottom ≤ b then add_table_content n t.content s else s) :=
  rfl

theorem mem_pn_add {x : Nat} (n : Nat) (c : Grid) (s : SectionData)
    (hx : x ∈ s.page_numbers) : x ∈ (add_table_content n c s).page_numbers := by
  cases c with
  | nil => exact hx
  | cons f tl =>
    simp only [add_table_content, List.mem_append]
    exact Or.inl hx

theorem mem_pn_add_self (n : Nat) {c : Grid} (s : SectionData) (hc : c ≠ []) :
    n ∈ (add_table_content n c s).page_numbers := by
  cases c with
  | nil => exact absurd rfl hc
  | cons f tl =>
    simp [add_table_content]

theorem mem_pn_band {x : Nat} (n : Nat) (tables : List TableRegion) (a b : ℤ) :
    ∀ s : SectionData, x ∈ s.page_numbers →
      x ∈ (process_band n tables a b s).page_numbers := by
  induction tables with
  | nil => exact fun s hx => hx
  | cons t ts ih =>
    intro s hx
    rw [process_band_cons]
    by_cases hc : a ≤ t.bbox.top ∧ t.bbox.bottom ≤ b
    · rw [if_pos hc]
      exact ih _ (mem_pn_add n t.content s hx)
    · rw [if_neg hc]
      exact ih _ hx

theorem band_attributes (n : Nat) (tables : List TableRegion) (a b : ℤ) :
    ∀ (s : SectionData) (t : TableRegion), t ∈ tables → t.content ≠ [] →
      a ≤ t.bbox.top → t.bbox.bottom ≤ b →
      n ∈ (process_band n tables a b s).page_numbers := by
  induction tables with
  | nil => intro s t ht; cases ht
  | cons u us ih =>
    intro s t ht hc h1 h2
    rw [process_band_cons]
    rcases List.mem_cons.mp ht with heq | hmem
    · subst heq
      rw [if_pos ⟨h1, h2⟩]
      exact mem_pn_band n us a b _ (mem_pn_add_self n s hc)
    · exact ih _ t hmem hc h1 h2

theorem band_skip (n : Nat) (tables : List TableRegion) (a b : ℤ) :
    ∀ s : SectionData, (∀ t ∈ tables, ¬(a ≤ t.bbox.top ∧ t.bbox.bottom ≤ b)) →
      process_band n tables a b s = s := by
  induction tables with
  | nil => exact fun s _ => rfl
  | cons u us ih =>
    intro s h
    rw [process_band_cons, if_neg (h u (List.mem_cons_self u us))]
    exact ih s fun t ht => h t (List.mem_cons_of_mem u ht)

theorem Outputs.get_set_self (o : Outputs) (ty : SectionType) (s : SectionData) :
    (o.set ty s).get ty = s := by
  cases ty <;> rfl

theorem Outputs.get_set_ne (o : Outputs) (ty ty' : SectionType) (s : SectionData)
    (h : ty' ≠ ty) : (o.set ty s).get ty' = o.get ty' := by
  cases ty <;> cases ty' <;> first | exact absurd rfl h | rfl

/-! ## Claim C3 -/

/-- Claim C3 counterexample.  On `page_C3` the retained headings are flora
(top 0, bottom 10) then fauna (top 50): the single table's bbox bottom equals
the second heading's top (50), yet the table IS attributed to the first
heading's section (flora rows and page number are populated), because the
code tests `table.bbox[3] <= bottom_boundary` — a closed, not half-open,
band. -/
theorem claim_C3_counterexample :
    (headers_on_page page_C3).map Heading.type = [SectionType.flora, SectionType.fauna] ∧
    (headers_on_page page_C3).map Heading.top = [0, 50] ∧
    page_C3.tables.map (fun t => t.bbox.bottom) = [50] ∧
    (run_scan [page_C3]).outputs.flora.rows = [[some "x"]] ∧
    (run_scan [page_C3]).outputs.flora.page_numbers = [1] := by
  decide

/-- Claim C3, amended: attribution uses the CLOSED band
`[heading[i].bottom, heading[i+1].top]` (last band ends at `page.height`,
also inclusively).  (1) A table with nonempty content fully inside the closed
band is attributed (its page number is recorded); (2) a table set none of
which is fully inside the band leaves the section untouched, so partial
overlap alone never attributes; (3) at page level, with retained headings
`[g1, g2]`, a nonempty-content table whose top is at or below `g1.bottom`
and whose bottom EQUALS `g2.top` is attributed to `g1`'s section. -/
theorem claim_C3 :
    (∀ (n : Nat) (tables : List TableRegion) (a b : ℤ) (s : SectionData),
      ∀ t ∈ tables, t.content ≠ [] → a ≤ t.bbox.top → t.bbox.bottom ≤ b →
        n ∈ (process_band n tables a b s).page_numbers) ∧
    (∀ (n : Nat) (tables : List TableRegion) (a b : ℤ) (s : SectionData),
      (∀ t ∈ tables, ¬(a ≤ t.bbox.top ∧ t.bbox.bottom ≤ b)) →
        process_band n tables a b s = s) ∧
    (∀ (p : Page) (st : ScanState) (g1 g2 : Heading) (n : Nat),
      headers_on_page p = [g1, g2] →
      ∀ t ∈ p.tables, t.content ≠ [] → g1.bottom ≤ t.bbox.top → t.bbox.bottom = g2.top →
        n ∈ ((process_page n p st).outputs.get g1.type).page_numbers) := by
  refine ⟨?_, ?_, ?_⟩
  · intro n tables a b s t ht hc h1 h2
    exact band_attributes n tables a b s t ht hc h1 h2
  · intro n tables a b s h
    exact band_skip n tables a b s h
  · intro p st g1 g2 n hH t ht hc h1 h2
    have hpp : process_page n p st =
        { outputs := process_headings n p.tables p.height (headers_on_page p) st.outputs,
          last_section_type := some g2.type } := by
      unfold process_page
      rw [hH]
      rfl
    rw [hpp]
    have hph : process_headings n p.tables p.height (headers_on_page p) st.outputs =
        (st.outputs.set g1.type
            (process_band n p.tables g1.bottom g2.top (st.outputs.get g1.type))).set g2.type
          (process_band n p.tables g2.bottom p.height
            ((st.outputs.set g1.type
              (process_band n p.tables g1.bottom g2.top (st.outputs.get g1.type))).get g2.type)) := by
      rw [hH]
      rfl
    rw [hph]
    by_cases hty : g1.type = g2.type
    · rw [← hty, Outputs.get_set_self]
      apply mem_pn_band
      rw [Outputs.get_set_self]
      exact band_attributes n p.tables g1.bottom g2.top _ t ht hc h1 (le_of_eq h2)
    · rw [Outputs.get_set_ne _ _ _ _ hty, Outputs.get_set_self]
      exact band_attributes n p.tables g1.bottom g2.top _ t ht hc h1 (le_of_eq h2)

/-- Claim C3 witness: the amended theorem applied on `page_C3`: the table with
bbox bottom exactly at the second heading's top lands in the flora section. -/
theorem claim_C3_witness :
    1 ∈ ((process_page 1 page_C3 ScanState.init).outputs.get SectionType.flora).page_numbers :=
  claim_C3.2.2 page_C3 ScanState.init ⟨SectionType.flora, 10, 0⟩ ⟨SectionType.fauna, 60, 50⟩ 1
    (by decide) ⟨⟨0, 20, 10, 50⟩, [[some "H"], [some "x"]]⟩ (by decide) (by decide) (by decide)
    (by decide)

/-! ## Claim C8 -/

theorem count_pn_add (n : Nat) (c : Grid) (s : SectionData) :
    (add_table_content n c s).page_numbers.count n
      = s.page_numbers.count n + (if c.isEmpty then 0 else 1) := by
  cases c with
  | nil => simp [add_table_content]
  | cons f tl => simp [add_table_content, List.count_append]

theorem count_pn_band (n : Nat) (tables : List TableRegion) (a b : ℤ) :
    ∀ s : SectionData,
      (process_band n tables a b s).page_numbers.count n
        = s.page_numbers.count n +
          (tables.filter fun t =>
            decide (a ≤ t.bbox.top ∧ t.bbox.bottom ≤ b) && !t.content.isEmpty).length := by
  induction tables with
  | nil => intro s; simp [process_band_nil]
  | cons t ts ih =>
    intro s
    rw [process_band_cons]
    by_cases hc : a ≤ t.bbox.top ∧ t.bbox.bottom ≤ b
    · rw [if_pos hc, ih, count_pn_add]
      cases hce : t.content.isEmpty
      · simp [List.filter_cons, hc, hce]
        omega
      · simp [List.filter_cons, hc, hce]
    · rw [if_neg hc, ih]
      simp [List.filter_cons, hc]

theorem count_pn_cont (n : Nat) (hdr : Row) :
    ∀ (ts : List TableRegion) (s : SectionData), (∀ t ∈ ts, good_continuation hdr t) →
      ((continuation_loop n hdr ts s).1).page_numbers.count n
        = s.page_numbers.count n + ts.length := by
  intro ts
  induction ts with
  | nil => intro s _; rfl
  | cons t ts ih =>
    intro s h
    obtain ⟨hne, hlen⟩ := h t (List.mem_cons_self t ts)
    obtain ⟨f, tl, hcontent⟩ := List.exists_cons_of_ne_nil hne
    rw [hcontent] at hlen
    simp only [List.headD_cons] at hlen
    simp only [continuation_loop, hcontent, if_pos hlen]
    rw [ih _ fun u hu => h u (List.mem_cons_of_mem t hu)]
    simp [List.count_append]
    omega

/-- Claim C8 counterexample.  On `page_C8` two tables with nonempty content
lie in the single flora band, and `section["page_numbers"].append(page_num)`
runs once per such table: the flora page-number list ends up `[1, 1]`,
refuting the claim that no page number ever occurs more than once. -/
theorem claim_C8_counterexample :
    (run_scan [page_C8]).outputs.flora.page_numbers = [1, 1] ∧
    ((run_scan [page_C8]).outputs.flora.page_numbers).count 1 = 2 ∧
    ¬ ((run_scan [page_C8]).outputs.flora.page_numbers).Nodup := by
  decide

/-- Claim C8, amended: the page-number list is NOT a set.  In heading mode the
current page number is appended once per table with nonempty content lying in
the band (so several same-page tables in one section's band append it several
times); in continuation mode it is appended once per accepted table. -/
theorem claim_C8 :
    (∀ (n : Nat) (tables : List TableRegion) (a b : ℤ) (s : SectionData),
      (process_band n tables a b s).page_numbers.count n
        = s.page_numbers.count n +
          (tables.filter fun t =>
            decide (a ≤ t.bbox.top ∧ t.bbox.bottom ≤ b) && !t.content.isEmpty).length) ∧
    (∀ (n : Nat) (hdr : Row) (ts : List TableRegion) (s : SectionData),
      (∀ t ∈ ts, good_continuation hdr t) →
      ((continuation_loop n hdr ts s).1).page_numbers.count n
        = s.page_numbers.count n + ts.length) :=
  ⟨fun n tables a b s => count_pn_band n tables a b s,
   fun n hdr ts s h => count_pn_cont n hdr ts s h⟩

/-- Claim C8 witness: the amended continuation count equation at a concrete
running section already holding page 1 once. -/
theorem claim_C8_witness :
    ((continuation_loop 2 [some "A"] [⟨⟨0, 10, 10, 20⟩, [[some "x"]]⟩]
        ⟨[], some [some "A"], [1]⟩).1).page_numbers.count 2
      = ([1] : List Nat).count 2 + 1 :=
  claim_C8.2 2 [some "A"] [⟨⟨0, 10, 10, 20⟩, [[some "x"]]⟩]
    ⟨[], some [some "A"], [1]⟩ (by decide)

/-! ## Claims C5 and C10: continuation-loop semantics -/

theorem cont_good_append (n : Nat) (hdr : Row) :
    ∀ (pre ts : List TableRegion) (s : SectionData),
      (∀ u ∈ pre, good_continuation hdr u) →
      continuation_loop n hdr (pre ++ ts) s
        = continuation_loop n hdr ts (continuation_loop n hdr pre s).1 := by
  intro pre
  induction pre with
  | nil => intro ts s _; rfl
  | cons u us ih =>
    intro ts s h
    obtain ⟨hne, hlen⟩ := h u (List.mem_cons_self u us)
    obtain ⟨f, tl, hcontent⟩ := List.exists_cons_of_ne_nil hne
    rw [hcontent] at hlen
    simp only [List.headD_cons] at hlen
    simp only [List.cons_append, continuation_loop, hcontent, if_pos hlen]
    exact ih ts _ fun v hv => h v (List.mem_cons_of_mem u hv)

theorem cont_bad_empty (n : Nat) (hdr : Row) (t : TableRegion) (rest : List TableRegion)
    (s : SectionData) (h : t.content = []) :
    continuation_loop n hdr (t :: rest) s = (s, false) := by
  simp [continuation_loop, h]

theorem cont_bad_mismatch (n : Nat) (hdr : Row) (t : TableRegion) (rest : List TableRegion)
    (s : SectionData) (hne : t.content ≠ [])
    (hlen : (t.content.headD []).length ≠ hdr.length) :
    continuation_loop n hdr (t :: rest) s = (s, false) := by
  obtain ⟨f, tl, hc⟩ := List.exists_cons_of_ne_nil hne
  rw [hc] at hlen
  simp only [List.headD_cons] at hlen
  simp [continuation_loop, hc, hlen]

theorem process_page_continuation (n : Nat) (p : Page) (st : ScanState) (sty : SectionType)
    (hdr : Row) (x : TableRegion) (xs : List TableRegion)
    (hH : headers_on_page p = [])
    (hlast : st.last_section_type = some sty)
    (htab : p.tables = x :: xs)
    (hhdr : (st.outputs.get sty).header = some hdr)
    (hne : hdr ≠ []) :
    process_page n p st =
      { outputs := st.outputs.set sty (continuation_loop n hdr p.tables (st.outputs.get sty)).1,
        last_section_type :=
          if (continuation_loop n hdr p.tables (st.outputs.get sty)).2 then some sty
          else none } := by
  obtain ⟨c, cs, hc⟩ := List.exists_cons_of_ne_nil hne
  subst hc
  obtain ⟨o, lst⟩ := st
  simp only at hlast hhdr
  subst hlast
  simp only [process_page, hH, htab, hhdr]
  simp

/-- Claim C5 counterexample.  Page 1 establishes the fauna section (header
`[A,B,C]`, one row, page 1); page 2 has no headings and two tables: the first
matches the 3-column header, the second has 2 columns.  The code appends the
first table's row BEFORE hitting the mismatch, so page 2 does contribute rows
(and its page number), refuting the claim that a mismatching page
"contributes no rows to any section"; the running state is cleared as
claimed. -/
theorem claim_C5_counterexample :
    (run_scan [page_C5a, page_C5b]).outputs.fauna.rows
        = [[some "a1", some "a2", some "a3"], [some "b1", some "b2", some "b3"]] ∧
    (run_scan [page_C5a, page_C5b]).outputs.fauna.page_numbers = [1, 2] ∧
    (run_scan [page_C5a, page_C5b]).last_section_type = none := by
  decide

/-- Claim C5, amended.  On a headerless page in continuation mode, a table
whose first row's length mismatches the stored header clears the running
section and stops the page's table loop — but tables processed EARLIER on the
same page that did match have already contributed their rows and page number;
only the mismatching table and the ones after it contribute nothing.  Once
the state is cleared, a headerless page with no running section changes
nothing. -/
theorem claim_C5 :
    (∀ (p : Page) (st : ScanState) (n : Nat) (sty : SectionType) (hdr : Row)
       (pre : List TableRegion) (t : TableRegion) (rest : List TableRegion),
      headers_on_page p = [] → st.last_section_type = some sty →
      (st.outputs.get sty).header = some hdr → hdr ≠ [] →
      p.tables = pre ++ t :: rest →
      (∀ u ∈ pre, good_continuation hdr u) →
      t.content ≠ [] → (t.content.headD []).length ≠ hdr.length →
      process_page n p st =
        { outputs := st.outputs.set sty (continuation_loop n hdr pre (st.outputs.get sty)).1,
          last_section_type := none }) ∧
    (∀ (p : Page) (st : ScanState) (n : Nat),
      headers_on_page p = [] → st.last_section_type = none → process_page n p st = st) := by
  constructor
  · intro p st n sty hdr pre t rest hH hlast hhdr hne htab hgood htc hlen
    have hx : ∃ x xs, p.tables = x :: xs := by
      cases pre with
      | nil => exact ⟨t, rest, htab⟩
      | cons a l => exact ⟨a, l ++ t :: rest, by simpa using htab⟩
    obtain ⟨x, xs, hxs⟩ := hx
    rw [process_page_continuation n p st sty hdr x xs hH hlast hxs hhdr hne, htab,
      cont_good_append n hdr pre (t :: rest) _ hgood,
      cont_bad_mismatch n hdr t rest _ htc hlen]
    rfl
  · intro p st n hH hlast
    obtain ⟨o, lst⟩ := st
    simp only at hlast
    subst hlast
    simp only [process_page, hH]

/-- Claim C5 witness: on `page_C5w` (match, then 2-column mismatch, then one
more table) with running fauna section `state_C5`, only the first table's
row arrives and the state clears; and a cleared state ignores headerless
pages. -/
theorem claim_C5_witness :
    (process_page 2 page_C5w state_C5 =
      { outputs := state_C5.outputs.set SectionType.fauna
          (continuation_loop 2 [some "A"] [⟨⟨0, 10, 10, 20⟩, [[some "x"]]⟩]
            (state_C5.outputs.get SectionType.fauna)).1,
        last_section_type := none }) ∧
    process_page 3 blank_page ⟨Outputs.init, none⟩ = ⟨Outputs.init, none⟩ :=
  ⟨claim_C5.1 page_C5w state_C5 2 SectionType.fauna [some "A"]
      [⟨⟨0, 10, 10, 20⟩, [[some "x"]]⟩] ⟨⟨0, 30, 10, 40⟩, [[some "y", some "z"]]⟩
      [⟨⟨0, 50, 10, 60⟩, [[some "w"]]⟩]
      (by decide) rfl (by decide) (by decide) rfl (by decide) (by decide) (by decide),
   claim_C5.2 blank_page ⟨Outputs.init, none⟩ 3 (by decide) rfl⟩

/-- Claim C10 (confirmed).  On a headerless page in continuation mode, a
table whose extracted grid is empty behaves exactly like a column-count
mismatch: the running-section state is cleared and the loop breaks, so the
page's remaining tables are never examined — the resulting state does not
depend on `rest` at all. -/
theorem claim_C10 :
    ∀ (p : Page) (st : ScanState) (n : Nat) (sty : SectionType) (hdr : Row)
      (pre : List TableRegion) (t : TableRegion) (rest : List TableRegion),
      headers_on_page p = [] → st.last_section_type = some sty →
      (st.outputs.get sty).header = some hdr → hdr ≠ [] →
      p.tables = pre ++ t :: rest →
      (∀ u ∈ pre, good_continuation hdr u) →
      t.content = [] →
      process_page n p st =
        { outputs := st.outputs.set sty (continuation_loop n hdr pre (st.outputs.get sty)).1,
          last_section_type := none } := by
  intro p st n sty hdr pre t rest hH hlast hhdr hne htab hgood htc
  have hx : ∃ x xs, p.tables = x :: xs := by
    cases pre with
    | nil => exact ⟨t, rest, htab⟩
    | cons a l => exact ⟨a, l ++ t :: rest, by simpa using htab⟩
  obtain ⟨x, xs, hxs⟩ := hx
  rw [process_page_continuation n p st sty hdr x xs hH hlast hxs hhdr hne, htab,
    cont_good_append n hdr pre (t :: rest) _ hgood,
    cont_bad_empty n hdr t rest _ htc]
  rfl

/-- Claim C10 witness: `page_C10`'s only table extracts an empty grid, and
the running fauna section of `state_C10` is cleared with nothing absorbed. -/
theorem claim_C10_witness :
    process_page 2 page_C10 state_C10 =
      { outputs := state_C10.outputs.set SectionType.fauna
          (continuation_loop 2 [some "A"] [] (state_C10.outputs.get SectionType.fauna)).1,
        last_section_type := none } :=
  claim_C10 page_C10 state_C10 2 SectionType.fauna [some "A"] [] ⟨⟨0, 10, 10, 20⟩, []⟩ []
    (by decide) rfl (by decide) (by decide) rfl (by decide) rfl

/-! ## Claim C9: rows never contain the stored header -/

theorem inv_add (n : Nat) (c : Grid) (s : SectionData) (hs : SectionInv s) :
    SectionInv (add_table_content n c s) := by
  obtain ⟨h0, h1⟩ := hs
  cases c with
  | nil => exact ⟨h0, h1⟩
  | cons f tl =>
    constructor
    · intro hn
      simp [add_table_content] at hn
    · intro h hh
      simp only [add_table_content, Option.some.injEq] at hh
      subst hh
      simp only [add_table_content, List.mem_append]
      rintro (hmem | hmem)
      · cases hhead : s.header with
        | none => rw [h0 hhead] at hmem; cases hmem
        | some h2 =>
          rw [hhead] at hmem
          exact h1 h2 hhead (by simpa [hhead] using hmem)
      · have := (List.mem_filter.mp hmem).2
        simp only [decide_eq_true_eq] at this
        exact this rfl

theorem inv_band (n : Nat) (tables : List TableRegion) (a b : ℤ) :
    ∀ s : SectionData, SectionInv s → SectionInv (process_band n tables a b s) := by
  induction tables with
  | nil => exact fun s hs => hs
  | cons t ts ih =>
    intro s hs
    rw [process_band_cons]
    by_cases hc : a ≤ t.bbox.top ∧ t.bbox.bottom ≤ b
    · rw [if_pos hc]
      exact ih _ (inv_add n t.content s hs)
    · rw [if_neg hc]
      exact ih _ hs

theorem inv_set (o : Outputs) (ty0 : SectionType) (s1 : SectionData)
    (ho : ∀ ty, SectionInv (o.get ty)) (hs : SectionInv s1) :
    ∀ ty, SectionInv ((o.set ty0 s1).get ty) := by
  intro ty
  by_cases hty : ty = ty0
  · subst hty
    rw [Outputs.get_set_self]
    exact hs
  · rw [Outputs.get_set_ne _ _ _ _ hty]
    exact ho ty

theorem inv_process_headings (n : Nat) (tables : List TableRegion) (H : ℤ) :
    ∀ (hs : List Heading) (o : Outputs),
      (∀ ty, SectionInv (o.get ty)) →
      ∀ ty, SectionInv ((process_headings n tables H hs o).get ty) := by
  intro hs
  induction hs with
  | nil => exact fun o ho => ho
  | cons h rest ih =>
    intro o ho ty
    simp only [process_headings]
    exact ih _ (inv_set o h.type _ ho (inv_band n tables _ _ _ (ho h.type))) ty

theorem cont_header_eq (n : Nat) (hdr : Row) :
    ∀ (ts : List TableRegion) (s : SectionData),
      ((continuation_loop n hdr ts s).1).header = s.header := by
  intro ts
  induction ts with
  | nil => intro s; rfl
  | cons t ts ih =>
    intro s
    cases hc : t.content with
    | nil => simp only [continuation_loop, hc]
    | cons f tl =>
      simp only [continuation_loop, hc]
      by_cases hlen : f.length = hdr.length
      · rw [if_pos hlen, ih]
      · rw [if_neg hlen]

theorem inv_cont (n : Nat) (hdr : Row) :
    ∀ (ts : List TableRegion) (s : SectionData),
      s.header = some hdr → SectionInv s →
      SectionInv (continuation_loop n hdr ts s).1 := by
  intro ts
  induction ts with
  | nil => exact fun s _ hs => hs
  | cons t ts ih =>
    intro s hhdr hs
    obtain ⟨h0, h1⟩ := hs
    cases hc : t.content with
    | nil =>
      simp only [continuation_loop, hc]
      exact ⟨h0, h1⟩
    | cons f tl =>
      simp only [continuation_loop, hc]
      by_cases hlen : f.length = hdr.length
      · rw [if_pos hlen]
        refine ih _ ?_ ⟨?_, ?_⟩
        · exact hhdr
        · intro hn
          simp only at hn
          rw [hhdr] at hn
          cases hn
        · intro h hh
          simp only at hh
          rw [hhdr] at hh
          injection hh with hx
          subst hx
          simp only [List.mem_append]
          rintro (hmem | hmem)
          · exact h1 hdr hhdr hmem
          · have hne2 := (List.mem_filter.mp hmem).2
            simp only [decide_eq_true_eq] at hne2
            exact hne2 rfl
      · rw [if_neg hlen]
        exact ⟨h0, h1⟩

theorem inv_process_page (n : Nat) (p : Page) (st : ScanState) (hst : StateInv st) :
    StateInv (process_page n p st) := by
  cases hhp : headers_on_page p with
  | cons h0 rest =>
    simp only [process_page, hhp]
    intro ty
    exact inv_process_headings n p.tables p.height (h0 :: rest) st.outputs hst ty
  | nil =>
    simp only [process_page, hhp]
    cases hl : st.last_section_type with
    | none => cases p.tables <;> exact hst
    | some sty =>
      cases htab : p.tables with
      | nil => exact hst
      | cons x xs =>
        dsimp only
        cases hh : (st.outputs.get sty).header with
        | none => exact hst
        | some hdr =>
          dsimp only
          by_cases hemp : hdr.isEmpty
          · rw [if_pos hemp]
            exact hst
          · rw [if_neg hemp]
            intro ty
            by_cases hty : ty = sty
            · subst hty
              rw [Outputs.get_set_self]
              exact inv_cont n hdr (x :: xs) _ hh (hst ty)
            · rw [Outputs.get_set_ne _ _ _ _ hty]
              exact hst ty

theorem inv_scan : ∀ (pages : List Page) (n : Nat) (st : ScanState),
    StateInv st → StateInv (scan_pages_from n pages st) := by
  intro pages
  induction pages with
  | nil => exact fun n st hst => hst
  | cons p ps ih =>
    intro n st hst
    exact ih (n + 1) _ (inv_process_page n p st hst)

theorem inv_init : StateInv ScanState.init := by
  intro ty
  cases ty <;> exact ⟨fun _ => rfl, fun h hh => by cases hh⟩

/-- Claim C9 (confirmed).  At any point of a document scan, a section whose
header is set never holds a row equal to that header: every extracted row
equal to the (just-adopted or pre-existing) header is skipped, both in
heading-band processing and in continuation processing, so re-processing a
table whose first row duplicates the stored header cannot duplicate it in
`rows`.  (Every intermediate state is the final state of the scan of some
page prefix, so quantifying over all page lists covers every point of a
longer scan.) -/
theorem claim_C9 (pages : List Page) (ty : SectionType) (h : Row)
    (hh : ((run_scan pages).outputs.get ty).header = some h) :
    h ∉ ((run_scan pages).outputs.get ty).rows :=
  (inv_scan pages 1 ScanState.init inv_init ty).2 h hh

/-- Claim C9 witness: on `page_C9` the flora header becomes `[H]` and the
accumulated rows do not contain it even though the table's first row equals
it. -/
theorem claim_C9_witness :
    [some "H"] ∉ ((run_scan [page_C9]).outputs.get SectionType.flora).rows :=
  claim_C9 [page_C9] SectionType.flora [some "H"] (by decide)

/-! ## Claim C2: exception propagation -/

theorem scanE_ok_prefix (e : String) (rest : List PageResult) :
    ∀ (pre : List Page) (n : Nat) (st : ScanState),
      scan_pages_fromE n (pre.map Except.ok ++ .error e :: rest) st = .error e := by
  intro pre
  induction pre with
  | nil => intro n st; rfl
  | cons p ps ih =>
    intro n st
    simp only [List.map_cons, List.cons_append, scan_pages_fromE]
    exact ih (n + 1) _

/-- Claim C2 counterexample.  The same exception `"boom"`, raised while
processing page 1 of a one-page document and while processing page 2 of a
two-page document, propagates as the byte-identical error value in both
runs: the propagated exception is the original object re-raised bare
(`raise` at line 231), carrying no page-number context, so no consumer of
the result can recover which page failed — refuting "wrapped with context
identifying the page number". -/
theorem claim_C2_counterexample :
    extract_nvr_tablesE (fun _ => none) [Except.error "boom"] = Except.error "boom" ∧
    extract_nvr_tablesE (fun _ => none) [Except.ok blank_page, Except.error "boom"]
      = Except.error "boom" := by
  constructor
  · rfl
  · rfl

/-- Claim C2, amended: the first page-level exception propagates to the
caller UNCHANGED (logged, then re-raised bare — not wrapped with the page
number), is never retried or swallowed, and fails the whole run: the driver
writes the error payload and exits with code 1. -/
theorem claim_C2 (fallback : String → Option Date) (document_type : String)
    (pre : List Page) (e : String) (rest : List PageResult) :
    extract_nvr_tablesE fallback (pre.map Except.ok ++ .error e :: rest) = .error e ∧
    main fallback document_type (pre.map Except.ok ++ .error e :: rest)
      = { written := .failure e [], mem_result := none, exit_code := 1 } := by
  have h := scanE_ok_prefix e rest pre 1 ScanState.init
  constructor
  · unfold extract_nvr_tablesE
    rw [h]
  · unfold main extract_nvr_tablesE
    rw [h]

/-! ## Claim C4: heading deduplication and ordering -/

/-- Claim C4 (confirmed).  On a page containing "Verified Records":
(1) the retained headings are sorted ascending by `top`;
(2, 3) every retained plain flora/fauna heading stems from a plain hit whose
`top` is at distance ≥ 5 from EVERY same-kind range hit — i.e. plain hits
within the 5-unit tolerance of a same-kind range hit are discarded;
(4) a page whose only hits are one plain flora hit and one flora-range hit
with tops within the tolerance yields exactly one heading, classified
`flora_range`. -/
theorem claim_C4 (p : Page) (hvr : p.verified_records ≠ []) :
    List.Sorted (fun a b : Heading => a.top ≤ b.top) (headers_on_page p) ∧
    (∀ h ∈ headers_on_page p, h.type = SectionType.flora →
      ∃ hit ∈ p.flora_hits, h.top = hit.top ∧ h.bottom = hit.bottom ∧
        ∀ r ∈ p.flora_range_hits, ¬(|r.top - hit.top| < 5)) ∧
    (∀ h ∈ headers_on_page p, h.type = SectionType.fauna →
      ∃ hit ∈ p.fauna_hits, h.top = hit.top ∧ h.bottom = hit.bottom ∧
        ∀ r ∈ p.fauna_range_hits, ¬(|r.top - hit.top| < 5)) ∧
    (∀ hit r : Hit, p.flora_hits = [hit] → p.flora_range_hits = [r] →
      p.fauna_hits = [] → p.fauna_range_hits = [] → |r.top - hit.top| < 5 →
      headers_on_page p =
        [{ type := SectionType.flora_range, bottom := r.bottom, top := r.top }]) := by
  have hemp : p.verified_records.isEmpty = false := by
    cases hv : p.verified_records with
    | nil => exact absurd hv hvr
    | cons a l => rfl
  have hcond : ¬(p.verified_records.isEmpty = true) := by simp [hemp]
  refine ⟨?_, ?_, ?_, ?_⟩
  · unfold headers_on_page
    rw [if_neg hcond]
    haveI : IsTotal Heading fun a b : Heading => a.top ≤ b.top :=
      ⟨fun a b => le_total a.top b.top⟩
    haveI : IsTrans Heading fun a b : Heading => a.top ≤ b.top :=
      ⟨fun _ _ _ hab hbc => le_trans hab hbc⟩
    exact List.sorted_insertionSort _ _
  · intro h hmem hty
    unfold headers_on_page at hmem
    rw [if_neg hcond] at hmem
    rw [List.mem_insertionSort] at hmem
    simp only [List.mem_append] at hmem
    rcases hmem with ((h1 | h2) | h3) | h4
    · obtain ⟨hit, _, rfl⟩ := List.mem_map.mp h1
      simp at hty
    · obtain ⟨hit, _, rfl⟩ := List.mem_map.mp h2
      simp at hty
    · obtain ⟨hit, _, rfl⟩ := List.mem_map.mp h3
      simp at hty
    · obtain ⟨hit, hmemf, rfl⟩ := List.mem_map.mp h4
      obtain ⟨hin, hcondf⟩ := List.mem_filter.mp hmemf
      simp only [Bool.not_eq_true', List.any_eq_false, decide_eq_true_eq] at hcondf
      exact ⟨hit, hin, rfl, rfl, hcondf⟩
  · intro h hmem hty
    unfold headers_on_page at hmem
    rw [if_neg hcond] at hmem
    rw [List.mem_insertionSort] at hmem
    simp only [List.mem_append] at hmem
    rcases hmem with ((h1 | h2) | h3) | h4
    · obtain ⟨hit, _, rfl⟩ := List.mem_map.mp h1
      simp at hty
    · obtain ⟨hit, _, rfl⟩ := List.mem_map.mp h2
      simp at hty
    · obtain ⟨hit, hmemf, rfl⟩ := List.mem_map.mp h3
      obtain ⟨hin, hcondf⟩ := List.mem_filter.mp hmemf
      simp only [Bool.not_eq_true', List.any_eq_false, decide_eq_true_eq] at hcondf
      exact ⟨hit, hin, rfl, rfl, hcondf⟩
    · obtain ⟨hit, _, rfl⟩ := List.mem_map.mp h4
      simp at hty
  · intro hit r h1 h2 h3 h4 h5
    have hd : (decide (|r.top - hit.top| < 5)) = true := decide_eq_true h5
    unfold headers_on_page
    rw [if_neg hcond, h1, h2, h3, h4]
    simp [hd, List.insertionSort, List.orderedInsert]

/-- Claim C4 witness: on `page_C4` (plain flora hit at top 10, flora-range
hit at top 12) exactly one heading survives, classified `flora_range`. -/
theorem claim_C4_witness :
    headers_on_page page_C4 =
      [{ type := SectionType.flora_range, bottom := 22, top := 12 }] :=
  (claim_C4 page_C4 (by decide)).2.2.2 ⟨10, 20⟩ ⟨12, 22⟩ rfl rfl rfl rfl (by decide)

/-! ## Claim C6: date normalization -/

theorem parse_dates_of_try (fallback : String → Option Date) (s : String) (d : Date)
    (hne : s ≠ "") (h : try_formats s = some d) :
    parse_dates fallback s = strftime_dmY d := by
  unfold parse_dates
  rw [if_neg hne, h]

/-- Claim C6 (confirmed).  Cells of date-like columns go through
`parse_dates`; `parse_dates` tries `%d-%b-%Y`, `%d/%m/%Y`, `%Y-%m-%d`,
`%d-%m-%Y` in that order (the first success wins, untouched by the
fallback), then the lenient pandas fallback, normalises every success to
`dd-mm-yyyy` text, and on total failure returns the original string; the
three sample dates all normalise to `"15-01-2024"` and `"unknown"` (on which
the lenient pandas parse yields NaT) passes through unchanged. -/
theorem claim_C6 (fallback : String → Option Date) :
    (∀ (name v : String), is_date_column name = true → v ≠ "" →
      clean_cell fallback (some name) (some v)
        = Except.ok (some (parse_dates fallback v))) ∧
    (∀ (s : String) (d : Date), s ≠ "" → parse_fmt_d_b_Y s = some d →
      parse_dates fallback s = strftime_dmY d) ∧
    (∀ (s : String) (d : Date), s ≠ "" → parse_fmt_d_b_Y s = none →
      parse_fmt_d_m_Y_slash s = some d → parse_dates fallback s = strftime_dmY d) ∧
    (∀ (s : String) (d : Date), s ≠ "" → parse_fmt_d_b_Y s = none →
      parse_fmt_d_m_Y_slash s = none → parse_fmt_Y_m_d s = some d →
      parse_dates fallback s = strftime_dmY d) ∧
    (∀ (s : String) (d : Date), s ≠ "" → parse_fmt_d_b_Y s = none →
      parse_fmt_d_m_Y_slash s = none → parse_fmt_Y_m_d s = none →
      parse_fmt_d_m_Y_dash s = some d → parse_dates fallback s = strftime_dmY d) ∧
    (∀ (s : String) (d : Date), s ≠ "" → try_formats s = none → fallback s = some d →
      parse_dates fallback s = strftime_dmY d) ∧
    (∀ s : String, s ≠ "" → try_formats s = none → fallback s = none →
      parse_dates fallback s = s) ∧
    parse_dates fallback "15-Jan-2024" = "15-01-2024" ∧
    parse_dates fallback "15/01/2024" = "15-01-2024" ∧
    parse_dates fallback "2024-01-15" = "15-01-2024" ∧
    (fallback "unknown" = none → parse_dates fallback "unknown" = "unknown") := by
  refine ⟨?_, ?_, ?_, ?_, ?_, ?_, ?_, ?_, ?_, ?_, ?_⟩
  · intro name v hdc hv
    unfold clean_cell
    dsimp only
    rw [if_neg hv, if_pos hdc]
  · intro s d hne h1
    apply parse_dates_of_try fallback s d hne
    unfold try_formats
    rw [h1]
  · intro s d hne h1 h2
    apply parse_dates_of_try fallback s d hne
    unfold try_formats
    rw [h1, h2]
  · intro s d hne h1 h2 h3
    apply parse_dates_of_try fallback s d hne
    unfold try_formats
    rw [h1, h2, h3]
  · intro s d hne h1 h2 h3 h4
    apply parse_dates_of_try fallback s d hne
    unfold try_formats
    rw [h1, h2, h3, h4]
  · intro s d hne htf hfb
    unfold parse_dates
    rw [if_neg hne, htf, hfb]
  · intro s hne htf hfb
    unfold parse_dates
    rw [if_neg hne, htf, hfb]
  · exact (parse_dates_of_try fallback "15-Jan-2024" ⟨2024, 1, 15⟩ (by decide)
      (by decide)).trans (by decide)
  · exact (parse_dates_of_try fallback "15/01/2024" ⟨2024, 1, 15⟩ (by decide)
      (by decide)).trans (by decide)
  · exact (parse_dates_of_try fallback "2024-01-15" ⟨2024, 1, 15⟩ (by decide)
      (by decide)).trans (by decide)
  · intro hfb
    unfold parse_dates
    rw [if_neg (by decide : ¬("unknown" = "")),
      show try_formats "unknown" = none from by decide, hfb]

/-- Claim C6 witness: a date-like column cell `"15-Jan-2024"` normalises to
`"15-01-2024"`, and `"unknown"` passes through unchanged when the lenient
fallback fails. -/
theorem claim_C6_witness :
    clean_cell (fun _ => none) (some "Last Recorded Date") (some "15-Jan-2024")
        = Except.ok (some "15-01-2024") ∧
    parse_dates (fun _ => none) "unknown" = "unknown" := by
  constructor
  · have h2 : parse_dates (fun _ => none) "15-Jan-2024" = "15-01-2024" := by decide
    exact ((claim_C6 (fun _ => none)).1 "Last Recorded Date" "15-Jan-2024" (by decide)
      (by decide)).trans (by rw [h2])
  · exact (claim_C6 (fun _ => none)).2.2.2.2.2.2.2.2.2.2 rfl

/-! ## Claim C7: column-count reconciliation -/

theorem getD_take_of_lt {α : Type} (l : List α) (n j : Nat) (d : α) (h : j < n) :
    (l.take n).getD j d = l.getD j d := by
  rw [List.getD_eq_getElem?_getD, List.getD_eq_getElem?_getD, List.getElem?_take, if_pos h]

theorem clean_row_getD (num : Nat) (row : Row) (j : Nat) (hj : j < num) :
    (clean_row num row).getD j none = row.getD j none := by
  unfold clean_row
  rw [getD_take_of_lt _ _ _ _ hj, List.getD_eq_getElem?_getD, List.getElem?_append]
  by_cases hr : j < row.length
  · rw [if_pos hr, ← List.getD_eq_getElem?_getD]
  · rw [if_neg hr]
    rw [List.getD_eq_default _ _ (by omega)]
    cases hrep : (List.replicate (num - row.length) (none : Cell))[j - row.length]? with
    | none =>
      rw [List.getElem?_eq_none_iff] at hrep
      rw [List.length_replicate] at hrep
      omega
    | some c =>
      have := List.getElem?_mem hrep
      have hc := List.eq_of_mem_replicate this
      subst hc
      rfl

theorem getD_map_of_lt {α β : Type} (f : α → β) (l : List α) (i : Nat)
    (hi : i < l.length) (d1 : β) (d2 : α) :
    (l.map f).getD i d1 = f (l.getD i d2) := by
  rw [List.getD_eq_getElem?_getD, List.getElem?_map, List.getD_eq_getElem?_getD]
  cases h : l[i]? with
  | none =>
    rw [List.getElem?_eq_none_iff] at h
    omega
  | some a => rfl

theorem process_row_from_ext (fallback : String → Option Date) :
    ∀ (hdr : Row) (k : Nat) (row row' : Row),
      (∀ j, j < hdr.length → row.getD (k + j) none = row'.getD (k + j) none) →
      process_row_from fallback row k hdr = process_row_from fallback row' k hdr := by
  intro hdr
  induction hdr with
  | nil => intro k row row' _; rfl
  | cons hn rest ih =>
    intro k row row' hagree
    have h0 : row.getD k none = row'.getD k none := by
      have := hagree 0 (by simp)
      simpa using this
    have htail : process_row_from fallback row (k + 1) rest
        = process_row_from fallback row' (k + 1) rest := by
      refine ih (k + 1) row row' fun j hj => ?_
      have := hagree (j + 1) (by simpa using Nat.succ_lt_succ hj)
      rw [show k + (j + 1) = k + 1 + j by omega] at this
      exact this
    simp only [process_row_from, h0, htail]

theorem process_row_from_ok (fallback : String → Option Date) :
    ∀ (hdr : Row), (∀ c ∈ hdr, c ≠ none) → ∀ (k : Nat) (row : Row),
      ∃ r, process_row_from fallback row k hdr = .ok r ∧
        r.map Prod.fst = hdr ∧
        (∀ j, j < hdr.length → row.getD (k + j) none = none →
          (r.getD j (none, some "!")).2 = none) := by
  intro hdr
  induction hdr with
  | nil =>
    intro _ k row
    exact ⟨[], rfl, rfl, fun j hj => absurd hj (by simp)⟩
  | cons hn rest ih =>
    intro hnames k row
    have hcell : ∃ v, clean_cell fallback hn (row.getD k none) = .ok v ∧
        (row.getD k none = none → v = none) := by
      cases hval : row.getD k none with
      | none => exact ⟨none, rfl, fun _ => rfl⟩
      | some vv =>
        cases hn with
        | none => exact absurd rfl (hnames none (List.mem_cons_self none rest))
        | some name =>
          by_cases hv : vv = ""
          · subst hv
            exact ⟨none, by simp [clean_cell], fun hcontr => by cases hcontr⟩
          · by_cases hd : is_date_column name
            · exact ⟨some (parse_dates fallback vv), by simp [clean_cell, hv, hd],
                fun hcontr => by cases hcontr⟩
            · exact ⟨some (py_strip vv), by simp [clean_cell, hv, hd],
                fun hcontr => by cases hcontr⟩
    obtain ⟨v, hcv, hvnone⟩ := hcell
    obtain ⟨r, hr, hmap, hnul⟩ :=
      ih (fun c hc => hnames c (List.mem_cons_of_mem hn hc)) (k + 1) row
    refine ⟨(hn, v) :: r, ?_, ?_, ?_⟩
    · simp only [process_row_from, hcv, hr]
    · simp [hmap]
    · intro j hj hnone
      cases j with
      | zero =>
        rw [Nat.add_zero] at hnone
        simpa using hvnone hnone
      | succ j2 =>
        have hj2 : j2 < rest.length := by simpa using Nat.lt_of_succ_lt_succ hj
        have := hnul j2 hj2 (by rw [show k + 1 + j2 = k + (j2 + 1) by omega]; exact hnone)
        simpa using this

theorem process_rows_loop_ok (fallback : String → Option Date) (header : Row) :
    ∀ rows : List Row, (∀ r ∈ rows, ∃ y, process_row fallback header r = .ok y) →
      ∃ ys, process_rows_loop fallback header rows = .ok ys ∧
        ys.length = rows.length ∧
        ∀ i, i < rows.length →
          process_row fallback header (rows.getD i []) = .ok (ys.getD i []) := by
  intro rows
  induction rows with
  | nil => exact fun _ => ⟨[], rfl, rfl, fun i hi => absurd hi (by simp)⟩
  | cons row rest ih =>
    intro hall
    obtain ⟨y, hy⟩ := hall row (List.mem_cons_self row rest)
    obtain ⟨ys, hys, hlen, hidx⟩ := ih fun r hr => hall r (List.mem_cons_of_mem row hr)
    refine ⟨y :: ys, ?_, by simp [hlen], ?_⟩
    · simp only [process_rows_loop, hy, hys]
    · intro i hi
      cases i with
      | zero => simpa using hy
      | succ i2 =>
        have hi2 : i2 < rest.length := by simpa using Nat.lt_of_succ_lt_succ hi
        simpa using hidx i2 hi2

/-- Claim C7 (confirmed).  For a non-empty header of pairwise-distinct column
names, the normalizer succeeds and: every processed record's keys are
exactly the header (in order, hence `header_len` keys); cells at indices at
or beyond the raw row's length (short rows, right-padded) come out null; and
each record equals the one computed from just the row's first `header_len`
cells (long rows, right-truncated). -/
theorem claim_C7 (fallback : String → Option Date) (header : Row) (rows : List Row)
    (hne : header ≠ []) (hnames : ∀ c ∈ header, c ≠ none) (_hnodup : header.Nodup)
    (hrows : rows ≠ []) :
    ∃ pt : ProcessedTable,
      clean_and_process_table_data fallback rows header = .ok pt ∧
      pt.processed_data.length = rows.length ∧
      (∀ rec ∈ pt.processed_data, rec.map Prod.fst = header) ∧
      (∀ i, i < rows.length → ∀ j, j < header.length →
        (rows.getD i []).length ≤ j →
        ((pt.processed_data.getD i []).getD j (none, some "!")).2 = none) ∧
      (∀ i, i < rows.length →
        process_row fallback header ((rows.getD i []).take header.length)
          = .ok (pt.processed_data.getD i [])) := by
  have hle : header.isEmpty = false := by
    cases hh : header with
    | nil => exact absurd hh hne
    | cons a l => rfl
  have hre : rows.isEmpty = false := by
    cases hh : rows with
    | nil => exact absurd hh hrows
    | cons a l => rfl
  obtain ⟨ys, hloop, hylen, hyidx⟩ :=
    process_rows_loop_ok fallback header (rows.map (clean_row header.length))
      (fun r _ => by
        obtain ⟨y, hy, _, _⟩ := process_row_from_ok fallback header hnames 0 r
        exact ⟨y, hy⟩)
  have hclean : clean_and_process_table_data fallback rows header
      = .ok ⟨header, rows.map (clean_row header.length), ys⟩ := by
    unfold clean_and_process_table_data
    rw [if_neg (by simp [hle, hre])]
    simp only [hloop]
  have hmaplen : (rows.map (clean_row header.length)).length = rows.length := by simp
  have hidx2 : ∀ i, i < rows.length →
      process_row fallback header (clean_row header.length (rows.getD i []))
        = .ok (ys.getD i []) := by
    intro i hi
    have := hyidx i (by omega)
    rwa [getD_map_of_lt (clean_row header.length) rows i hi [] []] at this
  refine ⟨⟨header, rows.map (clean_row header.length), ys⟩, hclean, ?_, ?_, ?_, ?_⟩
  · simpa using hylen
  · intro rec hrec
    obtain ⟨⟨i, hi⟩, hget⟩ := List.mem_iff_get.mp hrec
    have hi3 : i < ys.length := hi
    have hi2 : i < rows.length := by
      have h3 := hylen
      simp only [List.length_map] at h3
      omega
    obtain ⟨r, hr, hmap, _⟩ :=
      process_row_from_ok fallback header hnames 0
        (clean_row header.length (rows.getD i []))
    have h2 := hidx2 i hi2
    unfold process_row at h2
    rw [hr] at h2
    injection h2 with hry
    have hte : ys.getD i [] = rec := by
      rw [← hget, List.getD_eq_getElem ys [] hi3, List.get_eq_getElem]
    rw [← hte, ← hry]
    exact hmap
  · intro i hi j hj hlenj
    obtain ⟨r, hr, _, hnul⟩ :=
      process_row_from_ok fallback header hnames 0
        (clean_row header.length (rows.getD i []))
    have h2 := hidx2 i hi
    unfold process_row at h2
    rw [hr] at h2
    injection h2 with hry
    rw [← hry]
    refine hnul j hj ?_
    rw [Nat.zero_add, clean_row_getD _ _ _ hj]
    exact List.getD_eq_default _ _ hlenj
  · intro i hi
    have hext := process_row_from_ext fallback header 0
      ((rows.getD i []).take header.length) (clean_row header.length (rows.getD i []))
      (fun j hj => by rw [Nat.zero_add, getD_take_of_lt _ _ _ _ hj, clean_row_getD _ _ _ hj])
    have h2 := hidx2 i hi
    unfold process_row at h2 ⊢
    rw [hext]
    exact h2

/-- Claim C7 witness: header `[A, B, C]`, one raw row of length 1
(`header_len - 2`): the record has 3 keys and its padded cells are null. -/
theorem claim_C7_witness :
    ∃ pt : ProcessedTable,
      clean_and_process_table_data (fun _ => none) [[some "x"]]
          [some "A", some "B", some "C"] = .ok pt ∧
      pt.processed_data.length = ([[some "x"]] : List Row).length ∧
      (∀ rec ∈ pt.processed_data,
        rec.map Prod.fst = ([some "A", some "B", some "C"] : Row)) ∧
      (∀ i, i < ([[some "x"]] : List Row).length →
        ∀ j, j < ([some "A", some "B", some "C"] : Row).length →
        (([[some "x"]] : List Row).getD i []).length ≤ j →
        ((pt.processed_data.getD i []).getD j (none, some "!")).2 = none) ∧
      (∀ i, i < ([[some "x"]] : List Row).length →
        process_row (fun _ => none) [some "A", some "B", some "C"]
            ((([[some "x"]] : List Row).getD i []).take
              ([some "A", some "B", some "C"] : Row).length)
          = .ok (pt.processed_data.getD i [])) :=
  claim_C7 (fun _ => none) [some "A", some "B", some "C"] [[some "x"]]
    (by decide) (by decide) (by decide) (by decide)

/-! ## Claim C1: the zero-table run and what the driver emits -/

/-- Claim C1, evaluated at the failing input (a document with one blank
page).  The run terminates with exit code 0 and the in-memory `result` dict
does end up with `success = false`, `table_count = 0` and the diagnostic
payload — but `json.dump(result, f)` already ran BEFORE the zero-table
branch, so the output file the driver emits holds `success = true` and no
`debug_info`: the success-false-with-diagnostics result never reaches the
run's output. -/
theorem claim_C1_eval :
    main (fun _ => none) "NVR" [Except.ok blank_page] =
      { written := WrittenOutput.success
          { success := true, document_type := "NVR", tables := [], table_count := 0,
            sections_extracted := [], debug_info := none, error := none },
        mem_result := some
          { success := false, document_type := "NVR", tables := [], table_count := 0,
            sections_extracted := [],
            debug_info := some (build_debug_info [blank_page]),
            error := some (no_tables_error_message 0 1) },
        exit_code := 0 } := by
  rfl

end NVR
